import Mathlib

/-! libuiohook, `src/x11/system_properties.c`

A shallow embedding of the X11 system-property queries of libuiohook and the
properties of them that the specification states.

Conventions of the embedding.

* The process-wide handle `Display *disp` is passed explicitly as an
  `Option Display`: `none` is the null handle, `some d` a live connection,
  and the record `d` holds the answer the X server gives to each library
  call the file makes.
* C `int` values are `Int`.  A conversion to an unsigned type is written
  with an explicit `% 2 ^ w`.  `long int` is 64 bits wide (LP64), so the
  conversions `int → long int` and `unsigned int → long int` keep the value.
* Every function returns, next to its C result, the trace of the backend
  calls and `logger` calls it made, in program order.
* Code selected by the preprocessor is selected by a `Config` of booleans.
* An identifier that the file uses without any declaration in scope
  (`xine_count` in the XRandR branch, `kbdinfo` in the XF86Misc branch) is a
  parameter of the function that uses it.
-/

namespace Uiohook

/-! ## Build configuration, logging, traces -/

/-- The preprocessor symbols the file tests with `#ifdef`. -/
structure Config where
  USE_XKB : Bool
  USE_XF86MISC : Bool
  USE_XINERAMA : Bool
  USE_XRANDR : Bool
  USE_XT : Bool
  deriving DecidableEq, Repr

/-- Severity passed to `logger`. -/
inductive LogLevel where
  | debug | info | warn | error
  deriving DecidableEq, Repr

/-- The format string of a `logger` call, with the value printed by it. -/
inductive LogText where
  /-- "Received XRRScreenChangeNotifyEvent." -/
  | received_screen_change
  /-- "XRandR could not get screen resources!" -/
  | xrandr_no_resources
  /-- "XRandR is not currently available!" -/
  | xrandr_unavailable
  /-- "Screen count overflow detected!" -/
  | screen_count_overflow
  /-- "XRandr failed to return crtc information! (%#X)" -/
  | xrandr_crtc_failed (crtc : Nat)
  /-- "XkbGetAutoRepeatRate: %u." -/
  | XkbGetAutoRepeatRate (v : Int)
  /-- "XF86MiscGetKbdSettings: %i." -/
  | XF86MiscGetKbdSettings (v : Int)
  /-- "XGetPointerControl: %i." -/
  | XGetPointerControl (v : Int)
  /-- "XtGetMultiClickTime: %i." -/
  | XtGetMultiClickTime (v : Int)
  /-- "X default 'multiClickTime' property: %i." -/
  | x_default_multiClickTime (v : Int)
  /-- "X default 'MultiClickTimeout' property: %i." -/
  | x_default_MultiClickTimeout (v : Int)
  /-- "XOpenDisplay failure!" -/
  | XOpenDisplay_failure
  deriving DecidableEq, Repr

/-- A backend (X library) function the settings queries consult. -/
inductive Backend where
  | XkbGetAutoRepeatRate
  | XF86MiscGetKbdSettings
  | XGetPointerControl
  | XtGetMultiClickTime
  /-- `XGetDefault(disp, "*", "multiClickTime")` -/
  | XGetDefault_multiClickTime
  /-- `XGetDefault(disp, "OpenWindows", "MultiClickTimeout")` -/
  | XGetDefault_MultiClickTimeout
  | XRRQueryExtension
  | XRRFreeScreenResources
  | XRRGetScreenResources
  deriving DecidableEq, Repr

/-- One observable action of a query: a backend call or a `logger` call. -/
inductive Event where
  | call (f : Backend)
  | log (lvl : LogLevel) (msg : LogText)
  deriving DecidableEq, Repr

/-- The backend calls of a trace, in order. -/
def calls : List Event → List Backend
  | [] => []
  | .call f :: es => f :: calls es
  | .log _ _ :: es => calls es

/-! ## What a live display answers -/

/-- `XF86MiscKbdSettings`: the fields of it the file reads, both C `int`. -/
structure XF86MiscKbdSettings where
  rate : Int
  delay : Int
  deriving DecidableEq, Repr

/-- The three `int` outputs of `XGetPointerControl`. -/
structure PointerControl where
  accel_numerator : Int
  accel_denominator : Int
  threshold : Int
  deriving DecidableEq, Repr

/-- `XineramaScreenInfo`. -/
structure XineramaScreenInfo where
  screen_number : Int
  x_org : Int
  y_org : Int
  width : Int
  height : Int
  deriving DecidableEq, Repr

/-- `XRRCrtcInfo`: the fields the file reads. -/
structure XRRCrtcInfo where
  x : Int
  y : Int
  width : Int
  height : Int
  deriving DecidableEq, Repr

/-- `XRRScreenResources`: the CRTC identifiers; `ncrtc` is their number. -/
structure XRRScreenResources where
  crtcs : List Nat
  deriving DecidableEq, Repr

/-- The field `ncrtc` of `XRRScreenResources`. -/
def XRRScreenResources.ncrtc (r : XRRScreenResources) : Int := r.crtcs.length

/-- `Screen`: the fields the file reads. -/
structure Screen where
  width : Int
  height : Int
  deriving DecidableEq, Repr

/-- A live X connection: the answer of the server to each call of the file.
A call that reports failure answers `none`. -/
structure Display where
  /-- `XkbGetAutoRepeatRate`: `(delay, rate)`, both `unsigned int`, on success. -/
  XkbGetAutoRepeatRate : Option (Nat × Nat)
  /-- `XF86MiscGetKbdSettings`: the settings stored in `kb_info` on success. -/
  XF86MiscGetKbdSettings : Option XF86MiscKbdSettings
  /-- `XGetPointerControl` always stores its three outputs. -/
  XGetPointerControl : PointerControl
  /-- `XGetDefault(disp, "*", "multiClickTime")`, `none` for `NULL`. -/
  XGetDefault_multiClickTime : Option String
  /-- `XGetDefault(disp, "OpenWindows", "MultiClickTimeout")`, `none` for `NULL`. -/
  XGetDefault_MultiClickTimeout : Option String
  /-- `XineramaIsActive`. -/
  XineramaIsActive : Bool
  /-- `XineramaQueryScreens`: the records returned (their number is stored in
  `xine_count`), `none` for `NULL`. -/
  XineramaQueryScreens : Option (List XineramaScreenInfo)
  /-- `XRRQueryExtension`. -/
  XRRQueryExtension : Bool
  /-- `XRRGetScreenResources` on the root window, `none` for `NULL`. -/
  XRRGetScreenResources : Option XRRScreenResources
  /-- `XRRGetCrtcInfo` for a CRTC identifier, `none` for `NULL`. -/
  XRRGetCrtcInfo : Nat → Option XRRCrtcInfo
  /-- `DefaultScreenOfDisplay`. -/
  default_screen : Screen

/-! ## Keyboard auto-repeat -/

/-- The local variables of `hook_get_auto_repeat_rate` and
`hook_get_auto_repeat_delay`, with the trace. -/
structure RepeatLocals where
  successful : Bool
  delay : Nat
  rate : Nat
  trace : List Event

/-- The `#ifdef USE_XKB` block: `XkbGetAutoRepeatRate` stores `delay` and
`rate` on success; `shown` selects the value the log line prints. -/
def xkb_block (d : Display) (shown : Nat × Nat → Nat) (s : RepeatLocals) : RepeatLocals :=
  if !s.successful then
    match d.XkbGetAutoRepeatRate with
    | some dr =>
      { successful := true, delay := dr.1, rate := dr.2,
        trace := s.trace ++ [.call .XkbGetAutoRepeatRate,
                             .log .info (.XkbGetAutoRepeatRate (shown dr))] }
    | none =>
      { s with successful := false, trace := s.trace ++ [.call .XkbGetAutoRepeatRate] }
  else s

/-- The `#ifdef USE_XF86MISC` block.  `XF86MiscGetKbdSettings` fills the local
`kb_info`; the values logged and copied are read from `kbdinfo`. -/
def xf86misc_block (kbdinfo : XF86MiscKbdSettings) (d : Display)
    (shown : XF86MiscKbdSettings → Int) (s : RepeatLocals) : RepeatLocals :=
  if !s.successful then
    match d.XF86MiscGetKbdSettings with
    | some _kb_info =>
      { successful := true,
        delay := (kbdinfo.delay % 2 ^ 32).toNat,
        rate := (kbdinfo.rate % 2 ^ 32).toNat,
        trace := s.trace ++ [.call .XF86MiscGetKbdSettings,
                             .log .info (.XF86MiscGetKbdSettings (shown kbdinfo))] }
    | none =>
      { s with successful := false, trace := s.trace ++ [.call .XF86MiscGetKbdSettings] }
  else s

/-- The part shared by the two auto-repeat queries, up to `if (successful)`. -/
def auto_repeat_probe (cfg : Config) (kbdinfo : XF86MiscKbdSettings) (disp : Option Display)
    (shownXkb : Nat × Nat → Nat) (shownMisc : XF86MiscKbdSettings → Int) : RepeatLocals :=
  let s₀ : RepeatLocals := { successful := false, delay := 0, rate := 0, trace := [] }
  match disp with
  | some d =>
    let s₁ := if cfg.USE_XKB then xkb_block d shownXkb s₀ else s₀
    if cfg.USE_XF86MISC then xf86misc_block kbdinfo d shownMisc s₁ else s₁
  | none => { s₀ with trace := [.log .error .XOpenDisplay_failure] }

/-- `hook_get_auto_repeat_rate`: the value returned and the trace. -/
def hook_get_auto_repeat_rate (cfg : Config) (kbdinfo : XF86MiscKbdSettings)
    (disp : Option Display) : Int × List Event :=
  let s := auto_repeat_probe cfg kbdinfo disp (fun dr => dr.2) (fun k => k.rate)
  (if s.successful then (s.rate : Int) else -1, s.trace)

/-- `hook_get_auto_repeat_delay`: the value returned and the trace. -/
def hook_get_auto_repeat_delay (cfg : Config) (kbdinfo : XF86MiscKbdSettings)
    (disp : Option Display) : Int × List Event :=
  let s := auto_repeat_probe cfg kbdinfo disp (fun dr => dr.1) (fun k => k.delay)
  (if s.successful then (s.delay : Int) else -1, s.trace)

/-! ## Pointer control -/

/-- `hook_get_pointer_acceleration_multiplier`. -/
def hook_get_pointer_acceleration_multiplier (disp : Option Display) : Int × List Event :=
  match disp with
  | some d =>
    let p := d.XGetPointerControl
    if p.accel_denominator ≥ 0 then
      (p.accel_denominator,
        [.call .XGetPointerControl, .log .info (.XGetPointerControl p.accel_denominator)])
    else (-1, [.call .XGetPointerControl])
  | none => (-1, [.log .error .XOpenDisplay_failure])

/-- `hook_get_pointer_acceleration_threshold`. -/
def hook_get_pointer_acceleration_threshold (disp : Option Display) : Int × List Event :=
  match disp with
  | some d =>
    let p := d.XGetPointerControl
    if p.threshold ≥ 0 then
      (p.threshold, [.call .XGetPointerControl, .log .info (.XGetPointerControl p.threshold)])
    else (-1, [.call .XGetPointerControl])
  | none => (-1, [.log .error .XOpenDisplay_failure])

/-- `hook_get_pointer_sensitivity`. -/
def hook_get_pointer_sensitivity (disp : Option Display) : Int × List Event :=
  match disp with
  | some d =>
    let p := d.XGetPointerControl
    if p.accel_numerator ≥ 0 then
      (p.accel_numerator,
        [.call .XGetPointerControl, .log .info (.XGetPointerControl p.accel_numerator)])
    else (-1, [.call .XGetPointerControl])
  | none => (-1, [.log .error .XOpenDisplay_failure])

/-! ## Multi-click time -/

/-- The white-space class of `isspace` in the "C" locale: space, `\t`, `\n`,
`\v`, `\f`, `\r`. -/
def isspace (c : Char) : Bool :=
  c.toNat = 32 || (9 ≤ c.toNat && c.toNat ≤ 13)

/-- The value of a character as a digit (of any base up to 16). -/
def digit_value (c : Char) : Option Nat :=
  if 48 ≤ c.toNat ∧ c.toNat ≤ 57 then some (c.toNat - 48)
  else if 97 ≤ c.toNat ∧ c.toNat ≤ 102 then some (c.toNat - 87)
  else if 65 ≤ c.toNat ∧ c.toNat ≤ 70 then some (c.toNat - 55)
  else none

/-- The values of the longest run of leading characters that are digits of
`base`. -/
def scan_digits (base : Nat) : List Char → List Nat
  | [] => []
  | c :: cs =>
    match digit_value c with
    | some v => if v < base then v :: scan_digits base cs else []
    | none => []

/-- What `sscanf(xprop, "%4i", &click_time)` does: it returns `EOF`, or it
returns 0 and leaves `click_time` alone, or it returns 1 and stores a value. -/
inductive ScanResult where
  | eof
  | no_match
  | assigned (v : Int)
  deriving DecidableEq, Repr

/-- The C library call `sscanf(s, "%4i", &x)` (ISO C, 7.21.6.2): white space
is skipped; the end of the string before any conversion is an input failure
(`EOF`); the input item is taken from at most four characters: an optional
sign, then a number in the form `strtol` accepts with base 0 (`0x`/`0X` and
hexadecimal digits, or `0` and octal digits, or decimal digits); an item with
no digit is a matching failure, and so is, by the letter of the standard, a
`0x` that no hexadecimal digit follows. -/
def sscanf_4i (s : String) : ScanResult :=
  match s.toList.dropWhile isspace with
  | [] => .eof
  | cs =>
    let item := cs.take 4
    let signed : Bool × List Char :=
      match item with
      | c :: r => if c = '-' then (true, r) else if c = '+' then (false, r) else (false, item)
      | [] => (false, item)
    let based : Nat × List Char :=
      match signed.2 with
      | c₀ :: c₁ :: r =>
        if c₀ = '0' ∧ (c₁ = 'x' ∨ c₁ = 'X') then (16, r)
        else if c₀ = '0' then (8, signed.2)
        else (10, signed.2)
      | _ => (10, signed.2)
    let ds := scan_digits based.1 based.2
    if ds.isEmpty then .no_match
    else
      let n : Nat := ds.foldl (fun a v => a * based.1 + v) 0
      .assigned (if signed.1 then -(n : Int) else n)

/-- The local variables of `hook_get_multi_click_time`, with the trace. -/
structure ClickLocals where
  click_time : Int
  successful : Bool
  trace : List Event

/-- One `if (!successful) { char *xprop = XGetDefault(...); ... }` block:
`xprop` is the property, `f` the call made, `msg` its log line.  The block
succeeds when `xprop != NULL && sscanf(xprop, "%4i", &click_time) != EOF`. -/
def x_default_block (xprop : Option String) (f : Backend) (msg : Int → LogText)
    (s : ClickLocals) : ClickLocals :=
  if !s.successful then
    match xprop with
    | none => { s with trace := s.trace ++ [.call f] }
    | some str =>
      match sscanf_4i str with
      | .eof => { s with trace := s.trace ++ [.call f] }
      | .no_match =>
        { s with successful := true,
                 trace := s.trace ++ [.call f, .log .info (msg s.click_time)] }
      | .assigned v =>
        { click_time := v, successful := true,
          trace := s.trace ++ [.call f, .log .info (msg v)] }
  else s

/-- The `#ifdef USE_XT` block; `xt_disp` is `none` for a null toolkit display
and otherwise holds what `XtGetMultiClickTime(xt_disp)` returns. -/
def xt_block (xt_disp : Option Int) (s : ClickLocals) : ClickLocals :=
  match xt_disp with
  | some v =>
    if !s.successful then
      if v ≥ 0 then
        { click_time := v, successful := true,
          trace := s.trace ++ [.call .XtGetMultiClickTime, .log .info (.XtGetMultiClickTime v)] }
      else
        { s with click_time := v, trace := s.trace ++ [.call .XtGetMultiClickTime] }
    else s
  | none => { s with trace := s.trace ++ [.log .error .XOpenDisplay_failure] }

/-- `hook_get_multi_click_time`: the value returned and the trace.
`click_time₀` is the indeterminate content of the uninitialised local
`click_time`. -/
def hook_get_multi_click_time (cfg : Config) (xt_disp : Option Int) (disp : Option Display)
    (click_time₀ : Int) : Int × List Event :=
  let s₀ : ClickLocals := { click_time := click_time₀, successful := false, trace := [] }
  let s₁ := if cfg.USE_XT then xt_block xt_disp s₀ else s₀
  let s₂ : ClickLocals :=
    match disp with
    | some d =>
      let s := x_default_block d.XGetDefault_multiClickTime Backend.XGetDefault_multiClickTime
        LogText.x_default_multiClickTime s₁
      x_default_block d.XGetDefault_MultiClickTimeout Backend.XGetDefault_MultiClickTimeout
        LogText.x_default_MultiClickTimeout s
    | none => { s₁ with trace := s₁.trace ++ [Event.log .error .XOpenDisplay_failure] }
  (if s₂.successful then s₂.click_time else 200, s₂.trace)

/-! ## Screen information -/

/-- Modelled from the spec: the declaration of `screen_data` is in `uiohook.h`,
which is not among the sources.  The spec (section 3, MonitorDescriptor) gives
it five integer fields, wide enough for the values stored; `number` is the
spec's `id`. -/
structure screen_data where
  number : Int
  x : Int
  y : Int
  width : Int
  height : Int
  deriving DecidableEq, Repr

/-- How a call can fail to return at all. -/
inductive Fault where
  /-- The null `Display *` was handed to Xlib or dereferenced. -/
  | null_display
  deriving DecidableEq, Repr

/-- What `hook_get_screen_info` hands back: the `uint8_t` written through
`count`, and the array returned, `none` for `NULL`.  An element of the array
is `none` when the code never stored into it (its content is whatever
`malloc` left there). -/
structure ScreenInfo where
  count : Nat
  screens : Option (List (Option screen_data))
  trace : List Event
  deriving DecidableEq, Repr

/-- `UINT8_MAX`. -/
def UINT8_MAX : Int := 255

/-- Lines 122-130, the count stored in the Xinerama branch; `(uint8_t) c` is
`c % 2 ^ 8`. -/
def xinerama_store_count (xine_count : Int) : Nat × List Event :=
  if xine_count > UINT8_MAX then
    (UINT8_MAX.toNat, [.log .warn .screen_count_overflow])
  else
    ((xine_count % 2 ^ 8).toNat, [])

/-- Lines 153-161, the count stored in the XRandR branch: the test reads
`xine_count`, the conversion reads `xrr_count`. -/
def xrandr_store_count (xine_count xrr_count : Int) : Nat × List Event :=
  if xine_count > UINT8_MAX then
    (UINT8_MAX.toNat, [.log .warn .screen_count_overflow])
  else
    ((xrr_count % 2 ^ 8).toNat, [])

/-- The body of the Xinerama loop: the descriptor stored for one record. -/
def xinerama_entry (r : XineramaScreenInfo) : screen_data :=
  { number := r.screen_number, x := r.x_org, y := r.y_org, width := r.width, height := r.height }

/-- The XRandR loop from index `i` on, over the CRTCs not yet visited: the
entries of the array (`none` where `XRRGetCrtcInfo` failed and nothing was
stored) and the warnings logged. -/
def xrandr_fill (d : Display) : Nat → List Nat → List (Option screen_data) × List Event
  | _, [] => ([], [])
  | i, crtc :: rest =>
    let tail := xrandr_fill d (i + 1) rest
    match d.XRRGetCrtcInfo crtc with
    | some crtc_info =>
      (some { number := (i : Int) + 1, x := crtc_info.x, y := crtc_info.y,
              width := crtc_info.width, height := crtc_info.height } :: tail.1, tail.2)
    | none => (none :: tail.1, Event.log .warn (.xrandr_crtc_failed crtc) :: tail.2)

/-- `hook_get_screen_info`.  `xrr_resources` is the cached static of that name,
`malloc` tells whether the one allocation of the call succeeds, and
`xine_count` is the identifier of that name as the XRandR branch sees it (the
Xinerama branch declares its own). -/
def hook_get_screen_info (cfg : Config) (xine_count : Int)
    (xrr_resources : Option XRRScreenResources) (malloc : Bool) (disp : Option Display) :
    Except Fault ScreenInfo :=
  if cfg.USE_XINERAMA && !cfg.USE_XRANDR then
    match disp with
    | none => .error .null_display
    | some d =>
      if d.XineramaIsActive then
        match d.XineramaQueryScreens with
        | some xine_info =>
          let xine_count : Int := xine_info.length
          let c := xinerama_store_count xine_count
          let screens :=
            if malloc then some (xine_info.map fun r => some (xinerama_entry r)) else none
          .ok { count := c.1, screens := screens, trace := c.2 }
        | none => .ok { count := 0, screens := none, trace := [] }
      else .ok { count := 0, screens := none, trace := [] }
  else if cfg.USE_XRANDR then
    match xrr_resources with
    | some res =>
      let xrr_count : Int := res.ncrtc
      let c := xrandr_store_count xine_count xrr_count
      if malloc then
        match res.crtcs, disp with
        | [], _ => .ok { count := c.1, screens := some [], trace := c.2 }
        | _ :: _, none => .error .null_display
        | crtcs, some d =>
          let filled := xrandr_fill d 0 crtcs
          .ok { count := c.1, screens := some filled.1, trace := c.2 ++ filled.2 }
      else .ok { count := c.1, screens := none, trace := c.2 }
    | none => .ok { count := 0, screens := none, trace := [] }
  else
    match disp with
    | none => .error .null_display
    | some d =>
      let default_screen := d.default_screen
      if default_screen.width > 0 ∧ default_screen.height > 0 then
        if malloc then
          .ok { count := 0,
                screens := some [some { number := 1, x := 0, y := 0,
                                        width := default_screen.width,
                                        height := default_screen.height }],
                trace := [] }
        else .ok { count := 0, screens := none, trace := [] }
      else .ok { count := 0, screens := none, trace := [] }

/-! ## The settings thread -/

/-- The specification's `clamp` (section 4.1 and section 8), in its words:
`(maxValue, true)` if `rawCount > maxValue`, else `(max(rawCount, 0), false)`. -/
def clamp_spec (rawCount maxValue : Int) : Int × Bool :=
  if rawCount > maxValue then (maxValue, true) else (max rawCount 0, false)

/-! ## Concrete configurations and displays -/

/-- A display on which every optional backend fails or is unset; the base of
the concrete displays used below. -/
def bare_display : Display where
  XkbGetAutoRepeatRate := none
  XF86MiscGetKbdSettings := none
  XGetPointerControl := ⟨2, 1, 4⟩
  XGetDefault_multiClickTime := none
  XGetDefault_MultiClickTimeout := none
  XineramaIsActive := false
  XineramaQueryScreens := none
  XRRQueryExtension := false
  XRRGetScreenResources := none
  XRRGetCrtcInfo := fun _ => none
  default_screen := ⟨1024, 768⟩

/-- A build with every optional backend compiled in except XRandR. -/
def full_config : Config where
  USE_XKB := true
  USE_XF86MISC := true
  USE_XINERAMA := true
  USE_XRANDR := false
  USE_XT := true

/-- The build with the Xinerama strategy, XKB, XF86Misc and Xt. -/
def xinerama_config : Config := full_config

/-- The build with the XRandR strategy. -/
def xrandr_config : Config := { full_config with USE_XRANDR := true }

/-- The build with neither multi-head backend: the single-screen fallback. -/
def fallback_config : Config := { full_config with USE_XINERAMA := false }

/-- A display where XKB fails and XF86Misc reports rate 30 and delay 500. -/
def misc_only_display : Display :=
  { bare_display with XF86MiscGetKbdSettings := some { rate := 30, delay := 500 } }

/-- A Xinerama display with two screens side by side. -/
def two_screen_display : Display :=
  { bare_display with
    XineramaIsActive := true
    XineramaQueryScreens := some [⟨0, 0, 0, 1024, 768⟩, ⟨1, 1024, 0, 1024, 768⟩] }

/-- The records of 256 screens in a row, numbered from 0. -/
def crowded_screens : List XineramaScreenInfo :=
  (List.range 256).map fun (i : Nat) =>
    { screen_number := (i : Int), x_org := 1024 * (i : Int), y_org := 0,
      width := 1024, height := 768 }

/-- A Xinerama display that reports 256 screens. -/
def crowded_display : Display :=
  { bare_display with
    XineramaIsActive := true
    XineramaQueryScreens := some crowded_screens }

/-- A display whose "multiClickTime" default is the five characters 12345. -/
def long_property_display : Display :=
  { bare_display with XGetDefault_multiClickTime := some "12345" }

/-- A display whose "multiClickTime" default is unset and whose
"MultiClickTimeout" default is 350. -/
def timeout_display : Display :=
  { bare_display with XGetDefault_MultiClickTimeout := some "350" }

/-- The toolkit backend gives no value: Xt is not compiled in, or `xt_disp` is
null, or `XtGetMultiClickTime` returned a negative number. -/
def xt_fails (cfg : Config) (xt_disp : Option Int) : Prop :=
  cfg.USE_XT = false ∨ xt_disp = none ∨ ∃ v, xt_disp = some v ∧ v < 0

/-- A user-default property gives no value: `XGetDefault` returned `NULL`, or
`sscanf` returned `EOF` on it (it is empty or white space). -/
def unset (xprop : Option String) : Prop :=
  xprop = none ∨ ∃ s, xprop = some s ∧ sscanf_4i s = .eof

/-! ## Theorems -/

/-- C6: with a live display, each of the three pointer queries reads its own
field of the `XGetPointerControl` result (the threshold query the threshold,
the multiplier query the denominator, the sensitivity query the numerator) and
returns that field's raw value when it is not negative and -1 when it is;
the result is -1 exactly when the field is negative, and nothing else of the
display enters the value. -/
theorem pointer_queries_read_own_field (d : Display) :
    ((hook_get_pointer_acceleration_threshold (some d)).1
        = if d.XGetPointerControl.threshold < 0 then -1 else d.XGetPointerControl.threshold)
    ∧ ((hook_get_pointer_acceleration_multiplier (some d)).1
        = if d.XGetPointerControl.accel_denominator < 0 then -1
          else d.XGetPointerControl.accel_denominator)
    ∧ ((hook_get_pointer_sensitivity (some d)).1
        = if d.XGetPointerControl.accel_numerator < 0 then -1
          else d.XGetPointerControl.accel_numerator)
    ∧ ((hook_get_pointer_acceleration_threshold (some d)).1 = -1
        ↔ d.XGetPointerControl.threshold < 0)
    ∧ ((hook_get_pointer_acceleration_multiplier (some d)).1 = -1
        ↔ d.XGetPointerControl.accel_denominator < 0)
    ∧ ((hook_get_pointer_sensitivity (some d)).1 = -1
        ↔ d.XGetPointerControl.accel_numerator < 0)
    ∧ ((hook_get_pointer_acceleration_threshold
          (some { d with XGetPointerControl := { d.XGetPointerControl with threshold := 4 } })).1
        = 4) := by
  simp only [hook_get_pointer_acceleration_threshold, hook_get_pointer_acceleration_multiplier,
    hook_get_pointer_sensitivity]
  refine ⟨?_, ?_, ?_, ?_, ?_, ?_, ?_⟩ <;> split_ifs <;> simp_all <;> omega

/-- C2, counterexample: for the raw count -1 the clamping step stores 255 and
logs no warning, where the specification's clamp gives 0. -/
theorem store_count_negative_wraps :
    xinerama_store_count (-1) = (255, [])
    ∧ clamp_spec (-1) 255 = (0, false)
    ∧ ((xinerama_store_count (-1)).1 : Int) ≠ (clamp_spec (-1) 255).1 := by
  decide

/-- C2, amended: for every raw count `c` the Xinerama clamping step stores 255
and logs the overflow warning when `c > 255`; stores `c` itself, which is
`max c 0`, and logs nothing when `0 ≤ c ≤ 255`, so that it agrees with the
specification's clamp for every `c ≥ 0` and `c = 0` gives 0; and for a
negative `c` it logs nothing and stores the eight-bit conversion `c mod 256`,
a value in `0..255` that is 0 only when 256 divides `c`. -/
theorem store_count_cases (c : Int) :
    (c > 255 → xinerama_store_count c = (255, [.log .warn .screen_count_overflow]))
    ∧ (0 ≤ c → c ≤ 255 →
        ((xinerama_store_count c).1 : Int) = max c 0 ∧ (xinerama_store_count c).2 = [])
    ∧ (0 ≤ c →
        ((xinerama_store_count c).1 : Int) = (clamp_spec c 255).1
        ∧ ((xinerama_store_count c).2 ≠ [] ↔ (clamp_spec c 255).2 = true))
    ∧ (c < 0 →
        ((xinerama_store_count c).1 : Int) = c % 256
        ∧ (xinerama_store_count c).1 ≤ 255
        ∧ (xinerama_store_count c).2 = []
        ∧ ((xinerama_store_count c).1 = 0 ↔ (256 : Int) ∣ c)) := by
  have h8 : (2 : Int) ^ 8 = 256 := by norm_num
  have hnn : (0 : Int) ≤ c % 256 := Int.emod_nonneg c (by norm_num)
  have hlt : c % 256 < 256 := Int.emod_lt_of_pos c (by norm_num)
  refine ⟨?_, ?_, ?_, ?_⟩
  · intro h
    simp [xinerama_store_count, UINT8_MAX, h]
  · intro h0 h1
    have hmod : c % 256 = c := Int.emod_eq_of_lt h0 (by omega)
    simp only [xinerama_store_count, UINT8_MAX, h8]
    rw [if_neg (by omega)]
    simp only [hmod]
    refine ⟨?_, trivial⟩
    rw [Int.toNat_of_nonneg h0]
    omega
  · intro h0
    by_cases h : c > 255
    · simp [xinerama_store_count, clamp_spec, UINT8_MAX, h]
    · have hmod : c % 256 = c := Int.emod_eq_of_lt h0 (by omega)
      simp only [xinerama_store_count, clamp_spec, UINT8_MAX, h8]
      rw [if_neg h, if_neg h]
      simp only [hmod]
      refine ⟨?_, by simp⟩
      rw [Int.toNat_of_nonneg h0]
      omega
  · intro hneg
    simp only [xinerama_store_count, UINT8_MAX, h8]
    rw [if_neg (by omega)]
    refine ⟨Int.toNat_of_nonneg hnn, ?_, rfl, ?_⟩
    · show (c % 256).toNat ≤ 255
      omega
    · show (c % 256).toNat = 0 ↔ (256 : Int) ∣ c
      constructor
      · intro h
        have : c % 256 = 0 := by omega
        exact Int.dvd_of_emod_eq_zero this
      · intro h
        have : c % 256 = 0 := Int.emod_eq_zero_of_dvd h
        omega

/-- C2, amended, at concrete raw counts: 300 is clamped with the warning, 7
and 0 are kept, -256 and -1 wrap to 0 and 255. -/
theorem store_count_cases_witness :
    xinerama_store_count 300 = (255, [.log .warn .screen_count_overflow])
    ∧ (((xinerama_store_count 7).1 : Int) = max 7 0 ∧ (xinerama_store_count 7).2 = [])
    ∧ ((xinerama_store_count 0).1 : Int) = (clamp_spec 0 255).1
    ∧ ((xinerama_store_count (-1)).1 : Int) = (-1) % 256
    ∧ ((xinerama_store_count (-256)).1 = 0 ↔ (256 : Int) ∣ (-256)) :=
  ⟨(store_count_cases 300).1 (by decide),
   (store_count_cases 7).2.1 (by decide) (by decide),
   ((store_count_cases 0).2.2.1 (by decide)).1,
   ((store_count_cases (-1)).2.2.2 (by decide)).1,
   ((store_count_cases (-256)).2.2.2 (by decide)).2.2.2⟩

/-- C3, at the failing input: XKB fails and XF86Misc succeeds, reporting rate
30 and delay 500.  Both backends are called, XKB first, but the value returned
is read from `kbdinfo`, not from the settings XF86Misc stored: it is
`kbdinfo.rate` (resp. `kbdinfo.delay`) converted to `unsigned int`, whatever
XF86Misc reported, so for a `kbdinfo` holding zeros the result is 0. -/
theorem auto_repeat_reads_kbdinfo :
    (∀ kbdinfo : XF86MiscKbdSettings,
      (hook_get_auto_repeat_rate full_config kbdinfo (some misc_only_display)).1
        = kbdinfo.rate % 2 ^ 32
      ∧ (hook_get_auto_repeat_delay full_config kbdinfo (some misc_only_display)).1
        = kbdinfo.delay % 2 ^ 32
      ∧ calls (hook_get_auto_repeat_rate full_config kbdinfo (some misc_only_display)).2
        = [.XkbGetAutoRepeatRate, .XF86MiscGetKbdSettings]
      ∧ calls (hook_get_auto_repeat_delay full_config kbdinfo (some misc_only_display)).2
        = [.XkbGetAutoRepeatRate, .XF86MiscGetKbdSettings])
    ∧ (hook_get_auto_repeat_rate full_config ⟨0, 0⟩ (some misc_only_display)).1 = 0
    ∧ (hook_get_auto_repeat_delay full_config ⟨0, 0⟩ (some misc_only_display)).1 = 0
    ∧ misc_only_display.XF86MiscGetKbdSettings = some ⟨30, 500⟩ := by
  have key : ∀ x : Int, (((x % 2 ^ 32).toNat : Nat) : Int) = x % 2 ^ 32 := fun x =>
    Int.toNat_of_nonneg (Int.emod_nonneg x (by norm_num))
  refine ⟨?_, ?_, ?_, rfl⟩
  · intro kbdinfo
    refine ⟨?_, ?_, ?_, ?_⟩
    · simp only [hook_get_auto_repeat_rate, auto_repeat_probe, xkb_block, xf86misc_block,
        full_config, misc_only_display, bare_display]
      simpa using key kbdinfo.rate
    · simp only [hook_get_auto_repeat_delay, auto_repeat_probe, xkb_block, xf86misc_block,
        full_config, misc_only_display, bare_display]
      simpa using key kbdinfo.delay
    · simp [hook_get_auto_repeat_rate, auto_repeat_probe, xkb_block, xf86misc_block,
        full_config, misc_only_display, bare_display, calls]
    · simp [hook_get_auto_repeat_delay, auto_repeat_probe, xkb_block, xf86misc_block,
        full_config, misc_only_display, bare_display, calls]
  · simp [hook_get_auto_repeat_rate, auto_repeat_probe, xkb_block, xf86misc_block,
      full_config, misc_only_display, bare_display]
  · simp [hook_get_auto_repeat_delay, auto_repeat_probe, xkb_block, xf86misc_block,
      full_config, misc_only_display, bare_display]

/-- C1, counterexample: in the Xinerama build a backend that reports 256
screens gives the count 255 and, the allocation succeeding, a sequence of 256
descriptors: the count is not the number of entries and the sequence is not
truncated to 255. -/
theorem overflowing_count_differs_from_length :
    (hook_get_screen_info xinerama_config 0 none true (some crowded_display)).map
        (fun r => (r.count, r.screens.map List.length, r.trace))
      = .ok (255, some 256, [.log .warn .screen_count_overflow]) := by
  have hlen : crowded_screens.length = 256 := by
    simp only [crowded_screens, List.length_map, List.length_range]
  simp [hook_get_screen_info, xinerama_config, full_config, crowded_display, bare_display,
    Except.map, xinerama_store_count, UINT8_MAX, hlen]

/-- C1, amended: in every build and for every backend response, the count
written is at most 255.  In the Xinerama build, when the extension is active
and the screen query and the allocation succeed on `n` records, the sequence
returned holds exactly `n` descriptors, one per record and in the backend's
order, and the count is `min n 255`: count and length agree when `n ≤ 255`,
and when `n > 255` the count is 255 while the sequence still holds all `n`
descriptors. -/
theorem screen_count_and_length :
    (∀ (cfg : Config) (xine_count : Int) (res : Option XRRScreenResources) (malloc : Bool)
        (disp : Option Display) (r : ScreenInfo),
        hook_get_screen_info cfg xine_count res malloc disp = .ok r → r.count ≤ 255)
    ∧ (∀ (cfg : Config) (xine_count : Int) (res : Option XRRScreenResources) (d : Display)
        (xs : List XineramaScreenInfo),
        cfg.USE_XINERAMA = true → cfg.USE_XRANDR = false → d.XineramaIsActive = true →
        d.XineramaQueryScreens = some xs →
        ∃ r, hook_get_screen_info cfg xine_count res true (some d) = .ok r
          ∧ r.screens = some (xs.map fun x => some (xinerama_entry x))
          ∧ r.screens.map List.length = some xs.length
          ∧ r.count = min xs.length 255
          ∧ (xs.length ≤ 255 → r.count = xs.length)
          ∧ (xs.length > 255 → r.count = 255)) := by
  have h8 : (2 : Int) ^ 8 = 256 := by norm_num
  have hx : ∀ c : Int, (xinerama_store_count c).1 ≤ 255 := by
    intro c
    simp only [xinerama_store_count, UINT8_MAX, h8]
    split_ifs
    · simp
    · have := Int.emod_lt_of_pos c (show (0 : Int) < 256 by norm_num)
      show (c % 256).toNat ≤ 255
      omega
  have hr : ∀ a c : Int, (xrandr_store_count a c).1 ≤ 255 := by
    intro a c
    simp only [xrandr_store_count, UINT8_MAX, h8]
    split_ifs
    · simp
    · have := Int.emod_lt_of_pos c (show (0 : Int) < 256 by norm_num)
      show (c % 256).toNat ≤ 255
      omega
  refine ⟨?_, ?_⟩
  · intro cfg xine_count res malloc disp r h
    simp only [hook_get_screen_info] at h
    repeat' split at h
    all_goals
      first
        | (simp at h; done)
        | (simp only [Except.ok.injEq] at h
           subst h
           first
             | exact hx _
             | exact hr _ _
             | exact Nat.zero_le _)
  · intro cfg xine_count res d xs hxi hxr hact hq
    have hcount : (xinerama_store_count (xs.length : Int)).1 = min xs.length 255 := by
      simp only [xinerama_store_count, UINT8_MAX, h8]
      split_ifs with hgt
      · have : 255 < xs.length := by omega
        simp [Nat.min_eq_right (Nat.le_of_lt this)]
      · have hle : xs.length ≤ 255 := by omega
        have hmod : (xs.length : Int) % 256 = xs.length :=
          Int.emod_eq_of_lt (by omega) (by omega)
        show ((xs.length : Int) % 256).toNat = min xs.length 255
        rw [hmod, Nat.min_eq_left hle]
        simp
    refine ⟨{ count := (xinerama_store_count (xs.length : Int)).1,
              screens := some (xs.map fun x => some (xinerama_entry x)),
              trace := (xinerama_store_count (xs.length : Int)).2 }, ?_, rfl, ?_, hcount, ?_, ?_⟩
    · simp [hook_get_screen_info, hxi, hxr, hact, hq]
    · simp
    · intro hle
      show (xinerama_store_count (xs.length : Int)).1 = xs.length
      rw [hcount]
      exact Nat.min_eq_left hle
    · intro hgt
      show (xinerama_store_count (xs.length : Int)).1 = 255
      rw [hcount]
      exact Nat.min_eq_right (Nat.le_of_lt hgt)

/-- C1, amended, at concrete responses: two screens give count 2 and two
descriptors; any result has a count of at most 255. -/
theorem screen_count_and_length_witness :
    (hook_get_screen_info xinerama_config 0 none false (some two_screen_display)
        = .ok { count := 2, screens := none, trace := [] }
      ∧ ({ count := 2, screens := none, trace := [] } : ScreenInfo).count ≤ 255)
    ∧ ∃ r, hook_get_screen_info xinerama_config 0 none true (some two_screen_display) = .ok r
        ∧ r.screens = some ([⟨0, 0, 0, 1024, 768⟩, ⟨1, 1024, 0, 1024, 768⟩].map
            fun x => some (xinerama_entry x))
        ∧ r.screens.map List.length = some 2
        ∧ r.count = min 2 255
        ∧ (2 ≤ 255 → r.count = 2)
        ∧ (2 > 255 → r.count = 255) :=
  ⟨⟨rfl, screen_count_and_length.1 xinerama_config 0 none false (some two_screen_display)
      { count := 2, screens := none, trace := [] } rfl⟩,
   screen_count_and_length.2 xinerama_config 0 none two_screen_display _ rfl rfl rfl rfl⟩

/-- C7, at the failing input: in the single-screen fallback build, for a
default screen of 1024 by 768 and a successful allocation, the sequence
returned holds the one descriptor (1, 0, 0, 1024, 768), but the count written
is 0: the branch never stores 1 into it. -/
theorem fallback_count_stays_zero :
    hook_get_screen_info fallback_config 0 none true (some bare_display)
      = .ok { count := 0, screens := some [some ⟨1, 0, 0, 1024, 768⟩], trace := [] } := by
  rfl

/-- C8, at the failing input: in the Xinerama build with two screens reported
and the allocation failing, no sequence is returned and the count written is
2.  And in the XRandR build (with `xine_count` holding 0), a cached resource
with one CRTC whose info query fails gives the count 1 and a sequence whose
only entry was never stored. -/
theorem failed_allocation_keeps_count :
    hook_get_screen_info xinerama_config 0 none false (some two_screen_display)
      = .ok { count := 2, screens := none, trace := [] }
    ∧ hook_get_screen_info xrandr_config 0 (some ⟨[63]⟩) true (some bare_display)
        = .ok { count := 1, screens := some [none],
                trace := [.log .warn (.xrandr_crtc_failed 63)] } := by
  exact ⟨rfl, rfl⟩

/-- C9, at the failing input: with the null display handle the five value
queries return -1 after logging the error and calling no backend, but
`hook_get_screen_info` in the single-screen fallback build does not return: it
dereferences the handle through `DefaultScreenOfDisplay(disp)`. -/
theorem screen_info_null_display :
    (∀ (xine_count : Int) (res : Option XRRScreenResources) (malloc : Bool),
      hook_get_screen_info fallback_config xine_count res malloc none = .error .null_display)
    ∧ (∀ (cfg : Config) (kbdinfo : XF86MiscKbdSettings),
        hook_get_auto_repeat_rate cfg kbdinfo none = (-1, [.log .error .XOpenDisplay_failure])
        ∧ hook_get_auto_repeat_delay cfg kbdinfo none
            = (-1, [.log .error .XOpenDisplay_failure]))
    ∧ hook_get_pointer_acceleration_multiplier none = (-1, [.log .error .XOpenDisplay_failure])
    ∧ hook_get_pointer_acceleration_threshold none = (-1, [.log .error .XOpenDisplay_failure])
    ∧ hook_get_pointer_sensitivity none = (-1, [.log .error .XOpenDisplay_failure]) := by
  refine ⟨fun _ _ _ => rfl, fun _ _ => ⟨rfl, rfl⟩, rfl, rfl, rfl⟩

/-! ### The stages of `hook_get_multi_click_time` -/

theorem calls_append (a b : List Event) : calls (a ++ b) = calls a ++ calls b := by
  induction a with
  | nil => rfl
  | cons e es ih => cases e <;> simp [calls, ih]

theorem x_default_block_done (xprop : Option String) (f : Backend) (msg : Int → LogText)
    (s : ClickLocals) (h : s.successful = true) : x_default_block xprop f msg s = s := by
  simp [x_default_block, h]

theorem x_default_block_unset (xprop : Option String) (f : Backend) (msg : Int → LogText)
    (s : ClickLocals) (h : s.successful = false) (hu : unset xprop) :
    x_default_block xprop f msg s = { s with trace := s.trace ++ [.call f] } := by
  rcases hu with rfl | ⟨str, rfl, hs⟩
  · simp [x_default_block, h]
  · simp [x_default_block, h, hs]

theorem x_default_block_assigned (f : Backend) (msg : Int → LogText) (s : ClickLocals)
    (str : String) (n : Int) (h : s.successful = false) (hs : sscanf_4i str = .assigned n) :
    x_default_block (some str) f msg s
      = { click_time := n, successful := true,
          trace := s.trace ++ [.call f, .log .info (msg n)] } := by
  simp [x_default_block, h, hs]

theorem x_default_block_calls (xprop : Option String) (f : Backend) (msg : Int → LogText)
    (s : ClickLocals) :
    calls (x_default_block xprop f msg s).trace
      = calls s.trace ++ (if s.successful then [] else [f]) := by
  cases hsucc : s.successful with
  | true => simp [x_default_block, hsucc]
  | false =>
    cases xprop with
    | none => simp [x_default_block, hsucc, calls_append, calls]
    | some str =>
      cases hs : sscanf_4i str <;> simp [x_default_block, hsucc, hs, calls_append, calls]

theorem xt_stage_fails (cfg : Config) (xt_disp : Option Int) (c₀ : Int)
    (h : xt_fails cfg xt_disp) :
    (if cfg.USE_XT then xt_block xt_disp { click_time := c₀, successful := false, trace := [] }
      else { click_time := c₀, successful := false, trace := [] }).successful = false := by
  rcases h with h | rfl | ⟨v, rfl, hv⟩
  · simp [h]
  · cases cfg.USE_XT <;> simp [xt_block]
  · have : ¬ v ≥ 0 := by omega
    cases cfg.USE_XT <;> simp [xt_block, this]

theorem xt_stage_ok (cfg : Config) (v c₀ : Int) (hxt : cfg.USE_XT = true) (hv : 0 ≤ v) :
    (if cfg.USE_XT then
        xt_block (some v) { click_time := c₀, successful := false, trace := [] }
      else { click_time := c₀, successful := false, trace := [] })
      = { click_time := v, successful := true,
          trace := [.call .XtGetMultiClickTime, .log .info (.XtGetMultiClickTime v)] } := by
  simp [hxt, xt_block, hv]

theorem xt_stage_calls (cfg : Config) (xt_disp : Option Int) (c₀ : Int) :
    calls (if cfg.USE_XT then
        xt_block xt_disp { click_time := c₀, successful := false, trace := [] }
      else { click_time := c₀, successful := false, trace := [] }).trace = []
    ∨ calls (if cfg.USE_XT then
        xt_block xt_disp { click_time := c₀, successful := false, trace := [] }
      else { click_time := c₀, successful := false, trace := [] }).trace
        = [.XtGetMultiClickTime] := by
  cases cfg.USE_XT with
  | false => left; rfl
  | true =>
    cases xt_disp with
    | none => left; simp [xt_block, calls]
    | some v =>
      right
      by_cases hv : v ≥ 0 <;> simp [xt_block, hv, calls]

theorem multi_click_all_fail (cfg : Config) (xt_disp : Option Int) (disp : Option Display)
    (c₀ : Int) (hx : xt_fails cfg xt_disp)
    (hd : disp = none ∨ ∃ d, disp = some d ∧ unset d.XGetDefault_multiClickTime
      ∧ unset d.XGetDefault_MultiClickTimeout) :
    (hook_get_multi_click_time cfg xt_disp disp c₀).1 = 200 := by
  have h1 := xt_stage_fails cfg xt_disp c₀ hx
  rcases hd with rfl | ⟨d, rfl, hm, ht⟩
  · simp only [hook_get_multi_click_time]
    simp [h1]
  · simp only [hook_get_multi_click_time]
    generalize (if cfg.USE_XT then
      xt_block xt_disp { click_time := c₀, successful := false, trace := [] }
      else { click_time := c₀, successful := false, trace := [] }) = s₁ at h1 ⊢
    rw [x_default_block_unset _ _ _ s₁ h1 hm]
    rw [x_default_block_unset _ _ _ _
      (show ClickLocals.successful
        { s₁ with trace := s₁.trace ++ [Event.call Backend.XGetDefault_multiClickTime] }
          = false from h1) ht]
    simp [h1]

theorem multi_click_xt_ok (cfg : Config) (disp : Option Display) (v c₀ : Int)
    (hxt : cfg.USE_XT = true) (h0 : 0 ≤ v) :
    (hook_get_multi_click_time cfg (some v) disp c₀).1 = v
    ∧ calls (hook_get_multi_click_time cfg (some v) disp c₀).2 = [.XtGetMultiClickTime] := by
  simp only [hook_get_multi_click_time]
  rw [xt_stage_ok cfg v c₀ hxt h0]
  cases disp with
  | none => simp [calls_append, calls]
  | some d =>
    simp only []
    rw [x_default_block_done _ _ _ _ rfl, x_default_block_done _ _ _ _ rfl]
    simp [calls]

theorem x_default_block_set (xprop : Option String) (f : Backend) (msg : Int → LogText)
    (s : ClickLocals) (hu : ¬ unset xprop) :
    (x_default_block xprop f msg s).successful = true := by
  cases hsucc : s.successful with
  | true => simp [x_default_block, hsucc]
  | false =>
    cases xprop with
    | none => exact absurd (.inl rfl) hu
    | some str =>
      cases hs : sscanf_4i str with
      | eof => exact absurd (.inr ⟨str, rfl, hs⟩) hu
      | no_match => simp [x_default_block, hsucc, hs]
      | assigned n => simp [x_default_block, hsucc, hs]

theorem multi_click_calls (cfg : Config) (xt_disp : Option Int) (d : Display) (c₀ : Int) :
    ∃ s₁ : ClickLocals,
      (calls s₁.trace = [] ∨ calls s₁.trace = [.XtGetMultiClickTime])
      ∧ calls (hook_get_multi_click_time cfg xt_disp (some d) c₀).2
        = calls s₁.trace ++ (if s₁.successful then [] else [.XGetDefault_multiClickTime])
          ++ (if (x_default_block d.XGetDefault_multiClickTime .XGetDefault_multiClickTime
                LogText.x_default_multiClickTime s₁).successful then []
              else [.XGetDefault_MultiClickTimeout]) := by
  refine ⟨_, xt_stage_calls cfg xt_disp c₀, ?_⟩
  simp only [hook_get_multi_click_time, x_default_block_calls]

theorem xt_succeeds_of_not_fails (cfg : Config) (xt_disp : Option Int)
    (h : ¬ xt_fails cfg xt_disp) : cfg.USE_XT = true ∧ ∃ v, xt_disp = some v ∧ 0 ≤ v := by
  unfold xt_fails at h
  push_neg at h
  obtain ⟨h1, h2, h3⟩ := h
  refine ⟨by simpa using h1, ?_⟩
  cases xt_disp with
  | none => exact absurd rfl h2
  | some v => exact ⟨v, rfl, h3 v rfl⟩

/-- C4, counterexample: with no toolkit display and the "multiClickTime"
default set to 12345, the first backend that succeeds supplies 12345 and the
value returned is 1234. -/
theorem multi_click_long_property :
    long_property_display.XGetDefault_multiClickTime = some "12345"
    ∧ (hook_get_multi_click_time full_config none (some long_property_display) 0).1 = 1234
    ∧ (hook_get_multi_click_time full_config none (some long_property_display) 0).1
        ≠ 12345 := by
  decide

/-- C4, amended: `hook_get_multi_click_time` consults its backends in the
order Xt query, "multiClickTime", "MultiClickTimeout".  It returns 200 when
the toolkit gives no value and the display handle is null or both properties
are unset or empty.  It returns the toolkit value when that is not negative,
and then reads no property.  Otherwise it returns the number that the `%4i`
conversion of `sscanf` reads from the first property that is set and not
empty, when it reads one: the number written in at most the first four
characters after leading white space; "MultiClickTimeout" is not read when
"multiClickTime" gave a number. -/
theorem multi_click_chain (cfg : Config) (xt_disp : Option Int) (disp : Option Display)
    (c₀ : Int) :
    (xt_fails cfg xt_disp →
        (disp = none ∨ ∃ d, disp = some d ∧ unset d.XGetDefault_multiClickTime
          ∧ unset d.XGetDefault_MultiClickTimeout) →
        (hook_get_multi_click_time cfg xt_disp disp c₀).1 = 200)
    ∧ (∀ v, cfg.USE_XT = true → xt_disp = some v → 0 ≤ v →
        (hook_get_multi_click_time cfg xt_disp disp c₀).1 = v
        ∧ calls (hook_get_multi_click_time cfg xt_disp disp c₀).2 = [.XtGetMultiClickTime])
    ∧ (∀ d s n, xt_fails cfg xt_disp → disp = some d →
        d.XGetDefault_multiClickTime = some s → sscanf_4i s = .assigned n →
        (hook_get_multi_click_time cfg xt_disp disp c₀).1 = n
        ∧ Backend.XGetDefault_MultiClickTimeout
            ∉ calls (hook_get_multi_click_time cfg xt_disp disp c₀).2)
    ∧ (∀ d s n, xt_fails cfg xt_disp → disp = some d →
        unset d.XGetDefault_multiClickTime →
        d.XGetDefault_MultiClickTimeout = some s → sscanf_4i s = .assigned n →
        (hook_get_multi_click_time cfg xt_disp disp c₀).1 = n)
    ∧ (calls (hook_get_multi_click_time cfg xt_disp disp c₀).2).Sublist
        [.XtGetMultiClickTime, .XGetDefault_multiClickTime,
         .XGetDefault_MultiClickTimeout]
    ∧ (Backend.XGetDefault_multiClickTime
          ∈ calls (hook_get_multi_click_time cfg xt_disp disp c₀).2 →
        xt_fails cfg xt_disp)
    ∧ (Backend.XGetDefault_MultiClickTimeout
          ∈ calls (hook_get_multi_click_time cfg xt_disp disp c₀).2 →
        xt_fails cfg xt_disp ∧ ∃ d, disp = some d ∧ unset d.XGetDefault_multiClickTime) := by
  have hfail : ∀ f, f ∈ calls (hook_get_multi_click_time cfg xt_disp disp c₀).2 →
      f ≠ Backend.XtGetMultiClickTime → xt_fails cfg xt_disp := by
    intro f hf hne
    by_contra hn
    obtain ⟨hx, v, rfl, h0⟩ := xt_succeeds_of_not_fails cfg xt_disp hn
    rw [(multi_click_xt_ok cfg disp v c₀ hx h0).2] at hf
    simp at hf
    exact hne hf
  refine ⟨multi_click_all_fail cfg xt_disp disp c₀, ?_, ?_, ?_, ?_,
    fun h => hfail _ h (by decide), fun h => ⟨hfail _ h (by decide), ?_⟩⟩
  rotate_left 4
  · cases disp with
    | none =>
      exfalso
      simp only [hook_get_multi_click_time, calls_append] at h
      rcases xt_stage_calls cfg xt_disp c₀ with hc | hc <;> simp [hc, calls] at h
    | some d =>
      refine ⟨d, rfl, ?_⟩
      by_contra hu
      obtain ⟨s₁, hc, heq⟩ := multi_click_calls cfg xt_disp d c₀
      rw [heq, x_default_block_set _ _ _ s₁ hu] at h
      simp only [if_true, List.append_nil] at h
      rcases hc with hc | hc <;> rw [hc] at h <;> split_ifs at h <;> simp at h
  · intro v hxt hv h0
    subst hv
    exact multi_click_xt_ok cfg disp v c₀ hxt h0
  · intro d str n hx hd hm hs
    subst hd
    have h1 := xt_stage_fails cfg xt_disp c₀ hx
    simp only [hook_get_multi_click_time, hm]
    rw [x_default_block_assigned _ _ _ str n h1 hs, x_default_block_done _ _ _ _ rfl]
    refine ⟨by simp, ?_⟩
    simp only [calls_append]
    rcases xt_stage_calls cfg xt_disp c₀ with hc | hc <;> simp [hc, calls]
  · intro d str n hx hd hm ht hs
    subst hd
    have h1 := xt_stage_fails cfg xt_disp c₀ hx
    simp only [hook_get_multi_click_time, ht]
    generalize (if cfg.USE_XT then
      xt_block xt_disp { click_time := c₀, successful := false, trace := [] }
      else { click_time := c₀, successful := false, trace := [] }) = s₁ at h1 ⊢
    rw [x_default_block_unset _ _ _ s₁ h1 hm]
    rw [x_default_block_assigned _ _
      { s₁ with trace := s₁.trace ++ [Event.call Backend.XGetDefault_multiClickTime] }
      str n h1 hs]
    simp
  · simp only [hook_get_multi_click_time]
    cases disp with
    | none =>
      simp only [calls_append]
      rcases xt_stage_calls cfg xt_disp c₀ with hc | hc <;> simp [hc, calls]
    | some d =>
      simp only [x_default_block_calls]
      rcases xt_stage_calls cfg xt_disp c₀ with hc | hc <;> rw [hc] <;>
        split_ifs <;> decide

/-- C4, amended, at concrete backends: nothing available gives 200; an Xt
value of 350 gives 350; the property 12345 gives 1234; an unset
"multiClickTime" and a "MultiClickTimeout" of 350 give 350. -/
theorem multi_click_chain_witness :
    (hook_get_multi_click_time full_config none none 0).1 = 200
    ∧ ((hook_get_multi_click_time full_config (some 350) (some bare_display) 0).1 = 350
        ∧ calls (hook_get_multi_click_time full_config (some 350) (some bare_display) 0).2
            = [.XtGetMultiClickTime])
    ∧ ((hook_get_multi_click_time full_config none (some long_property_display) 0).1 = 1234
        ∧ Backend.XGetDefault_MultiClickTimeout
            ∉ calls (hook_get_multi_click_time full_config none (some long_property_display) 0).2)
    ∧ (hook_get_multi_click_time full_config (some (-1)) (some timeout_display) 0).1 = 350 :=
  ⟨(multi_click_chain full_config none none 0).1 (.inr (.inl rfl)) (.inl rfl),
   (multi_click_chain full_config (some 350) (some bare_display) 0).2.1 350 rfl rfl
     (by decide),
   (multi_click_chain full_config none (some long_property_display) 0).2.2.1
     long_property_display "12345" 1234 (.inr (.inl rfl)) rfl rfl (by decide),
   (multi_click_chain full_config (some (-1)) (some timeout_display) 0).2.2.2.1
     timeout_display "350" 350 (.inr (.inr ⟨-1, rfl, by decide⟩)) rfl (.inl rfl) rfl
     (by decide)⟩

end Uiohook
